import Mathlib

/-!
Verification of the Wasabi distortion plugin core
(`Source/PluginProcessor.cpp` / `Source/PluginProcessor.h`).

The development shallowly embeds the pieces of the processor the claims
refer to:

* the parameter store (ten `AudioParameterFloat`/`AudioParameterBool`
  entries with declared ranges; `setValueNotifyingHost ∘ convertTo0to1`
  clamps a written value into the declared range),
* preset recall (`setCurrentProgram` / `getCurrentProgram`),
* the distortion-mode decoding (`static_cast<int>(value * 2)`),
* the per-sample noise-gate + waveshaper + mix stage of `processBlock`
  (exact real arithmetic stands in for IEEE `float`),
* the control-flow skeleton of `processBlock` (bypass early-return,
  clearing of extra output channels, and the per-channel loop that runs
  the filter sections over a `ProcessContextReplacing` built from the
  whole oversampled block).

Machine floats are modelled by exact arithmetic (`ℚ` for the parameter
store and mode decoding, `ℝ` for the signal path); the claims under
study are formula-level and do not depend on rounding.
-/

/-- `juce::jlimit(lower, upper, value)`: `value` clamped into
`[lower, upper]`, translated from the JUCE template
(`value < lower ? lower : upper < value ? upper : value`). -/
def jlimit {α : Type} [LinearOrder α] (lo hi v : α) : α :=
  if v < lo then lo else if hi < v then hi else v

/-- The plugin's parameter state: the nine continuous parameters created
in `createParameterLayout`, the boolean bypass parameter, and the
`"currentProgram"` property stored on `parameters.state`. -/
structure ParamState where
  drive : ℚ
  range : ℚ
  blend : ℚ
  volume : ℚ
  midFreq : ℚ
  midGain : ℚ
  highPassFreq : ℚ
  lowPassFreq : ℚ
  distortionType : ℚ
  bypass : Bool
  currentProgram : ℤ

/-- The defaults declared in `createParameterLayout` (and the
`getProperty("currentProgram", 0)` default). -/
def defaultParams : ParamState :=
  { drive := 0.5, range := 1, blend := 0.8, volume := 1,
    midFreq := 1000, midGain := 6, highPassFreq := 100,
    lowPassFreq := 6000, distortionType := 0,
    bypass := false, currentProgram := 0 }

/-- Preset 0 "Wasabi Warfare": the nine `setParamValue` calls of
`case 0` in `setCurrentProgram`.  Each write passes through
`convertTo0to1`/`setValueNotifyingHost`, i.e. is clamped into the
parameter's declared range. -/
def applyPreset0 (s : ParamState) : ParamState :=
  { s with
    drive := jlimit 0 2 1, range := jlimit 0 5 2,
    blend := jlimit 0 1 0.9, volume := jlimit 0 2 1,
    midFreq := jlimit 500 2000 1000, midGain := jlimit 0 12 6,
    highPassFreq := jlimit 50 500 100, lowPassFreq := jlimit 2000 12000 6000,
    distortionType := jlimit 0 1 0 }

/-- Preset 1 "Up Your Nose" (`case 1` of `setCurrentProgram`). -/
def applyPreset1 (s : ParamState) : ParamState :=
  { s with
    drive := jlimit 0 2 1.5, range := jlimit 0 5 3,
    blend := jlimit 0 1 0.95, volume := jlimit 0 2 1.2,
    midFreq := jlimit 500 2000 800, midGain := jlimit 0 12 8,
    highPassFreq := jlimit 50 500 150, lowPassFreq := jlimit 2000 12000 5000,
    distortionType := jlimit 0 1 0.5 }

/-- Preset 2 "Sushi Roll" (`case 2` of `setCurrentProgram`). -/
def applyPreset2 (s : ParamState) : ParamState :=
  { s with
    drive := jlimit 0 2 1.2, range := jlimit 0 5 2.5,
    blend := jlimit 0 1 0.9, volume := jlimit 0 2 1.3,
    midFreq := jlimit 500 2000 1200, midGain := jlimit 0 12 7,
    highPassFreq := jlimit 50 500 120, lowPassFreq := jlimit 2000 12000 7000,
    distortionType := jlimit 0 1 1 }

/-- Preset 3 "Soy Sauce" (`case 3` of `setCurrentProgram`). -/
def applyPreset3 (s : ParamState) : ParamState :=
  { s with
    drive := jlimit 0 2 1.8, range := jlimit 0 5 4,
    blend := jlimit 0 1 1, volume := jlimit 0 2 1,
    midFreq := jlimit 500 2000 900, midGain := jlimit 0 12 9,
    highPassFreq := jlimit 50 500 200, lowPassFreq := jlimit 2000 12000 4500,
    distortionType := jlimit 0 1 0.5 }

/-- Preset 4 "Soba" (`case 4` of `setCurrentProgram`). -/
def applyPreset4 (s : ParamState) : ParamState :=
  { s with
    drive := jlimit 0 2 0.8, range := jlimit 0 5 1.5,
    blend := jlimit 0 1 0.85, volume := jlimit 0 2 1.1,
    midFreq := jlimit 500 2000 1100, midGain := jlimit 0 12 5,
    highPassFreq := jlimit 50 500 80, lowPassFreq := jlimit 2000 12000 8000,
    distortionType := jlimit 0 1 0 }

/-- The `switch (index)` statement of `setCurrentProgram`: note that it
switches on the original, unclamped `index`, and has no `default`
branch, so an out-of-range index writes nothing. -/
def applyPresetSwitch (index : ℤ) (s : ParamState) : ParamState :=
  if index = 0 then applyPreset0 s
  else if index = 1 then applyPreset1 s
  else if index = 2 then applyPreset2 s
  else if index = 3 then applyPreset3 s
  else if index = 4 then applyPreset4 s
  else s

/-- `WasabiAudioProcessor::setCurrentProgram(index)`: stores
`jlimit(0, getNumPrograms() - 1, index)` into the `"currentProgram"`
property, then runs the preset `switch` on the unclamped `index`. -/
def setCurrentProgram (index : ℤ) (s : ParamState) : ParamState :=
  applyPresetSwitch index { s with currentProgram := jlimit 0 4 index }

/-- `WasabiAudioProcessor::getCurrentProgram()`: reads the stored
`"currentProgram"` property. -/
def getCurrentProgram (s : ParamState) : ℤ :=
  s.currentProgram

/-- C++ `static_cast<int>` on a real value: truncation toward zero. -/
def cppTruncToInt (q : ℚ) : ℤ :=
  if 0 ≤ q then ⌊q⌋ else ⌈q⌉

/-- The distortion-mode decoding in `processBlock`:
`static_cast<int>(*parameters.getRawParameterValue(distortionType) * 2)`. -/
def decodeDistortionType (v : ℚ) : ℤ :=
  cppTruncToInt (v * 2)

/-- The noise-gate factor of the per-sample stage of `processBlock`
(threshold `0.01`): `std::abs(clean) < threshold ? 0.1f : 1.0f`. -/
noncomputable def gateFactor (x : ℝ) : ℝ :=
  if |x| < 0.01 then 0.1 else 1

/-- The `switch (distortionType)` waveshaper of `processBlock`, applied
to `d = clean * preGain`.  Case 0 is the smooth tanh, case 1 the hard
clip, case 2 the wavefolder; any other mode leaves `distorted`
unchanged (the `switch` has no `default`). -/
noncomputable def distortStage (mode : ℤ) (drive : ℝ) (d : ℝ) : ℝ :=
  if mode = 0 then
    Real.tanh (d * (1 + drive)) * 0.9
  else if mode = 1 then
    jlimit (-0.9) 0.9 (Real.tanh (d * 0.6) * 1.8 * (1 + drive * 2))
  else if mode = 2 then
    jlimit (-0.9) 0.9
      (Real.sin ((d - 0.2 * d * d * d) * Real.pi * (0.5 + drive * 0.5)))
  else d

/-- One iteration of the inner sample loop of `processBlock`:
gate, pre-gain, waveshaper, volume scaling and wet/dry mix, with the
gate factor reapplied to the mixed output
(`data[sample] = (distorted * blend + clean * (1.0f - blend)) * gate`). -/
noncomputable def processSample (mode : ℤ) (drive range blend volume x : ℝ) : ℝ :=
  (distortStage mode drive ((x * gateFactor x) * (range * 5)) * (0.5 + volume * 1.5) * blend
    + (x * gateFactor x) * (1 - blend)) * gateFactor x

/-- The raw value the audio thread reads for the boolean bypass
parameter (`AudioParameterBool` stores `0.0f` or `1.0f`). -/
def bypassRaw (s : ParamState) : ℚ :=
  if s.bypass then 1 else 0

/-- The channel-clearing loop of `processBlock`:
`for (i = numInputChannels; i < numOutputChannels; ++i) buffer.clear(i, ...)`. -/
def clearChannels (numIn numOut : ℕ) (buf : List (List ℝ)) : List (List ℝ) :=
  buf.mapIdx (fun i ch => if numIn ≤ i ∧ i < numOut then ch.map (fun _ => 0) else ch)

/-- The control-flow skeleton of `WasabiAudioProcessor::processBlock`:
if the bypass raw value exceeds `0.5f` the function returns at once,
leaving the buffer untouched; otherwise it clears the output channels
beyond the input count and hands the buffer to the remainder of the
pipeline (parameter snapshot, coefficient update, oversampling and the
per-channel filter/distortion loop), abstracted here as `rest`. -/
def processBlock (rest : ParamState → List (List ℝ) → List (List ℝ))
    (numInputChannels numOutputChannels : ℕ)
    (s : ParamState) (buffer : List (List ℝ)) : List (List ℝ) :=
  if bypassRaw s > 1/2 then buffer
  else rest s (clearChannels numInputChannels numOutputChannels buffer)

/-- The four per-sample-domain stages of the oversampled section of
`processBlock`. -/
inductive Stage
  | highPass
  | midBoost
  | nonlinear
  | lowPass
deriving DecidableEq, Repr

/-- One call `filter.process(context)` on a `ProcessorDuplicator` whose
`ProcessContextReplacing` wraps the whole oversampled block: the mono
filter is run over every channel of the block (channel indices
`0, …, numChannels - 1`), not just the loop's current channel. -/
def stageApplications (st : Stage) (numChannels : ℕ) : List (Stage × ℕ) :=
  (List.range numChannels).map (fun ch => (st, ch))

/-- The body of the per-channel loop of `processBlock`, as the ordered
list of (stage, channel) applications it performs: high-pass over the
whole block, mid-boost over the whole block, the per-sample nonlinear
stage on the loop's own channel only (it writes through
`getChannelPointer(channel)`), then low-pass over the whole block. -/
def channelLoopBody (numChannels ch : ℕ) : List (Stage × ℕ) :=
  stageApplications Stage.highPass numChannels
    ++ stageApplications Stage.midBoost numChannels
    ++ [(Stage.nonlinear, ch)]
    ++ stageApplications Stage.lowPass numChannels

/-- The full ordered trace of (stage, channel) applications performed
by the `for (channel = 0; channel < numInputChannels; ++channel)` loop
of `processBlock` in the oversampled domain. -/
def processTrace (numChannels : ℕ) : List (Stage × ℕ) :=
  (List.range numChannels).flatMap (fun ch => channelLoopBody numChannels ch)

/-- `jlimit` is the usual clamp when the bounds are ordered. -/
theorem jlimit_eq_max_min {α : Type} [LinearOrder α] (lo hi v : α) (h : lo ≤ hi) :
    jlimit lo hi v = max lo (min hi v) := by
  unfold jlimit
  split_ifs with h1 h2
  · rw [min_eq_right (le_trans h1.le h), max_eq_left h1.le]
  · rw [min_eq_left h2.le, max_eq_right h]
  · push_neg at h1 h2
    rw [min_eq_right h2, max_eq_right h1]

/-- The clamp used by distortion modes 1 and 2 bounds the magnitude
by `0.9`. -/
theorem abs_jlimit_le (v : ℝ) : |jlimit (-0.9) 0.9 v| ≤ 0.9 := by
  unfold jlimit
  split_ifs with h1 h2
  · rw [abs_le]
    constructor <;> norm_num
  · rw [abs_le]
    constructor <;> norm_num
  · rw [abs_le]
    constructor <;> linarith

/-- The preset `switch` never touches the bypass parameter. -/
theorem applyPresetSwitch_bypass (index : ℤ) (s : ParamState) :
    (applyPresetSwitch index s).bypass = s.bypass := by
  unfold applyPresetSwitch applyPreset0 applyPreset1 applyPreset2 applyPreset3 applyPreset4
  split_ifs <;> rfl

/-- The preset `switch` never touches the stored program index. -/
theorem applyPresetSwitch_currentProgram (index : ℤ) (s : ParamState) :
    (applyPresetSwitch index s).currentProgram = s.currentProgram := by
  unfold applyPresetSwitch applyPreset0 applyPreset1 applyPreset2 applyPreset3 applyPreset4
  split_ifs <;> rfl

/-- C7: after `setCurrentProgram 2` ("Sushi Roll"), reading back the
nine continuous parameters yields exactly drive = 1.2, range = 2.5,
blend = 0.9, volume = 1.3, midFreq = 1200, midGain = 7,
highPassFreq = 120, lowPassFreq = 7000, distortionType = 1.0,
whatever the previous state was. -/
theorem selectPreset2_reads_back_sushi_roll (s : ParamState) :
    (setCurrentProgram 2 s).drive = 1.2 ∧
    (setCurrentProgram 2 s).range = 2.5 ∧
    (setCurrentProgram 2 s).blend = 0.9 ∧
    (setCurrentProgram 2 s).volume = 1.3 ∧
    (setCurrentProgram 2 s).midFreq = 1200 ∧
    (setCurrentProgram 2 s).midGain = 7 ∧
    (setCurrentProgram 2 s).highPassFreq = 120 ∧
    (setCurrentProgram 2 s).lowPassFreq = 7000 ∧
    (setCurrentProgram 2 s).distortionType = 1 := by
  unfold setCurrentProgram applyPresetSwitch applyPreset2
  norm_num [jlimit]

/-- C9: applying any in-range preset index leaves the bypass parameter
exactly as it was — the preset `switch` writes only the nine continuous
parameters. -/
theorem setCurrentProgram_preserves_bypass (index : ℤ) (s : ParamState)
    (h0 : 0 ≤ index) (h4 : index ≤ 4) :
    (setCurrentProgram index s).bypass = s.bypass := by
  unfold setCurrentProgram
  rw [applyPresetSwitch_bypass]

/-- Witness for `setCurrentProgram_preserves_bypass` at index 2. -/
theorem setCurrentProgram_preserves_bypass_witness :
    (0 ≤ (2:ℤ) ∧ (2:ℤ) ≤ 4) ∧
    (setCurrentProgram 2 defaultParams).bypass = defaultParams.bypass :=
  ⟨⟨by norm_num, by norm_num⟩,
    setCurrentProgram_preserves_bypass 2 defaultParams (by norm_num) (by norm_num)⟩

/-- C10: after `setCurrentProgram` with an arbitrary integer argument,
`getCurrentProgram` returns the argument clamped into `[0, 4]`; in
particular the stored program index is always one of 0..4. -/
theorem getCurrentProgram_after_set_clamped (index : ℤ) (s : ParamState) :
    getCurrentProgram (setCurrentProgram index s) = max 0 (min 4 index) ∧
    0 ≤ getCurrentProgram (setCurrentProgram index s) ∧
    getCurrentProgram (setCurrentProgram index s) ≤ 4 := by
  have h : getCurrentProgram (setCurrentProgram index s) = jlimit 0 4 index := by
    unfold setCurrentProgram getCurrentProgram
    rw [applyPresetSwitch_currentProgram]
  refine ⟨?_, ?_, ?_⟩ <;> rw [h] <;> unfold jlimit <;> split_ifs <;> omega

/-- C6 counterexample: `setCurrentProgram 7` does not write preset 4's
snapshot — starting from the defaults, `drive` stays at its default
`0.5` instead of becoming preset 4's `0.8` (the `switch` matches no
case for an out-of-range index). -/
theorem setCurrentProgram_seven_not_preset4 :
    (setCurrentProgram 7 defaultParams).drive = 0.5 ∧
    (applyPreset4 defaultParams).drive = 0.8 ∧
    (setCurrentProgram 7 defaultParams).drive ≠ (applyPreset4 defaultParams).drive := by
  refine ⟨?_, ?_, ?_⟩ <;>
    norm_num [setCurrentProgram, applyPresetSwitch, applyPreset4, defaultParams, jlimit]

/-- C6 (amended): an out-of-range preset index never errors and clamps
the stored current-program index to the nearest valid index, but writes
none of the nine continuous parameter values: the state is unchanged
except for the stored index. -/
theorem setCurrentProgram_outOfRange_writes_nothing (index : ℤ) (s : ParamState)
    (h : index < 0 ∨ 4 < index) :
    setCurrentProgram index s = { s with currentProgram := max 0 (min 4 index) } := by
  have hj : jlimit (0:ℤ) 4 index = max 0 (min 4 index) := by
    unfold jlimit; split_ifs <;> omega
  have h0 : index ≠ 0 := by omega
  have h1 : index ≠ 1 := by omega
  have h2 : index ≠ 2 := by omega
  have h3 : index ≠ 3 := by omega
  have h4 : index ≠ 4 := by omega
  unfold setCurrentProgram applyPresetSwitch
  rw [if_neg h0, if_neg h1, if_neg h2, if_neg h3, if_neg h4, hj]

/-- Witness for `setCurrentProgram_outOfRange_writes_nothing` at
index 7. -/
theorem setCurrentProgram_outOfRange_writes_nothing_witness :
    ((7:ℤ) < 0 ∨ 4 < (7:ℤ)) ∧
    setCurrentProgram 7 defaultParams
      = { defaultParams with currentProgram := max 0 (min 4 7) } :=
  ⟨Or.inr (by norm_num),
    setCurrentProgram_outOfRange_writes_nothing 7 defaultParams (Or.inr (by norm_num))⟩

/-- C5 counterexample: the per-sample stage decodes the distortion mode
by C truncation, not rounding — at `distortionType = 0.3` the code uses
mode 0 while `round(0.3 × 2) = 1`. -/
theorem decodeDistortionType_not_round :
    decodeDistortionType 0.3 = 0 ∧ round ((0.3:ℚ) * 2) = 1 ∧
    decodeDistortionType 0.3 ≠ round ((0.3:ℚ) * 2) := by
  have h1 : decodeDistortionType 0.3 = 0 := by
    norm_num [decodeDistortionType, cppTruncToInt]
  have h2 : round ((0.3:ℚ) * 2) = 1 := by
    norm_num [round_eq]
  refine ⟨h1, h2, ?_⟩
  rw [h1, h2]
  norm_num

/-- C5 (amended): for `v ∈ [0, 1]` the mode used by the per-sample
stage is the truncation `⌊v × 2⌋`, an element of `{0, 1, 2}`; in
particular `v = 0.3` decodes to mode 0 and `v = 0.8` to mode 1. -/
theorem decodeDistortionType_truncates (v : ℚ) (h0 : 0 ≤ v) (h1 : v ≤ 1) :
    decodeDistortionType v = ⌊v * 2⌋ ∧
    0 ≤ decodeDistortionType v ∧ decodeDistortionType v ≤ 2 ∧
    decodeDistortionType 0.3 = 0 ∧ decodeDistortionType 0.8 = 1 := by
  have hf : decodeDistortionType v = ⌊v * 2⌋ := by
    unfold decodeDistortionType cppTruncToInt
    rw [if_pos (by linarith)]
  refine ⟨hf, ?_, ?_, by norm_num [decodeDistortionType, cppTruncToInt],
    by norm_num [decodeDistortionType, cppTruncToInt]⟩
  · rw [hf]
    exact Int.floor_nonneg.mpr (by linarith)
  · rw [hf]
    calc ⌊v * 2⌋ ≤ ⌊(2:ℚ)⌋ := Int.floor_le_floor (by linarith)
    _ = 2 := by norm_num

/-- Witness for `decodeDistortionType_truncates` at `v = 0.5`. -/
theorem decodeDistortionType_truncates_witness :
    (0 ≤ (0.5:ℚ) ∧ (0.5:ℚ) ≤ 1) ∧
    (decodeDistortionType 0.5 = ⌊(0.5:ℚ) * 2⌋ ∧
      0 ≤ decodeDistortionType 0.5 ∧ decodeDistortionType 0.5 ≤ 2 ∧
      decodeDistortionType 0.3 = 0 ∧ decodeDistortionType 0.8 = 1) :=
  ⟨⟨by norm_num, by norm_num⟩,
    decodeDistortionType_truncates 0.5 (by norm_num) (by norm_num)⟩

/-- C1 (behavior at the failing input): in a stereo process call the
per-channel loop builds its `ProcessContextReplacing` from the whole
oversampled block, so each filter section is applied to channel 0's
samples twice — once per iteration of the channel loop — rather than
exactly once as specified; only the nonlinear stage runs exactly once
per channel.  With a single channel every stage does run exactly
once. -/
theorem processTrace_stereo_filters_run_twice :
    (processTrace 2).count (Stage.highPass, 0) = 2 ∧
    (processTrace 2).count (Stage.midBoost, 0) = 2 ∧
    (processTrace 2).count (Stage.lowPass, 0) = 2 ∧
    (processTrace 2).count (Stage.highPass, 1) = 2 ∧
    (processTrace 2).count (Stage.nonlinear, 0) = 1 ∧
    (processTrace 2).count (Stage.nonlinear, 1) = 1 ∧
    (processTrace 1).count (Stage.highPass, 0) = 1 ∧
    (processTrace 1).count (Stage.lowPass, 0) = 1 := by
  decide

/-- C2: the waveshaper is a pure per-sample function of the gated input
`x`, the decoded mode, `drive` and `preGain = range × 5`: mode 0 (A)
returns `tanh(x·preGain·(1+drive))·0.9`; mode 1 (B) returns
`clamp(tanh(x·preGain·0.6)·1.8·(1+2·drive), -0.9, 0.9)`; mode 2 (C)
returns `clamp(sin((u - 0.2·u³)·π·(0.5+0.5·drive)), -0.9, 0.9)` with
`u = x·preGain`. -/
theorem distortStage_matches_spec_formulas (drive range x : ℝ) :
    distortStage 0 drive (x * (range * 5)) =
      Real.tanh (x * (range * 5) * (1 + drive)) * 0.9 ∧
    distortStage 1 drive (x * (range * 5)) =
      max (-0.9) (min 0.9 (Real.tanh (x * (range * 5) * 0.6) * 1.8 * (1 + 2 * drive))) ∧
    distortStage 2 drive (x * (range * 5)) =
      max (-0.9) (min 0.9 (Real.sin
        ((x * (range * 5) - 0.2 * (x * (range * 5)) ^ 3)
          * Real.pi * (0.5 + 0.5 * drive)))) := by
  refine ⟨?_, ?_, ?_⟩
  · norm_num [distortStage]
  · have e : distortStage 1 drive (x * (range * 5)) =
        jlimit (-0.9) 0.9
          (Real.tanh (x * (range * 5) * 0.6) * 1.8 * (1 + drive * 2)) := by
      norm_num [distortStage]
    rw [e, jlimit_eq_max_min _ _ _ (by norm_num)]
    have e2 : Real.tanh (x * (range * 5) * 0.6) * 1.8 * (1 + drive * 2) =
        Real.tanh (x * (range * 5) * 0.6) * 1.8 * (1 + 2 * drive) := by ring
    rw [e2]
  · have e : distortStage 2 drive (x * (range * 5)) =
        jlimit (-0.9) 0.9
          (Real.sin ((x * (range * 5)
              - 0.2 * (x * (range * 5)) * (x * (range * 5)) * (x * (range * 5)))
            * Real.pi * (0.5 + drive * 0.5))) := by
      norm_num [distortStage]
    rw [e, jlimit_eq_max_min _ _ _ (by norm_num)]
    have e2 : (x * (range * 5)
          - 0.2 * (x * (range * 5)) * (x * (range * 5)) * (x * (range * 5)))
          * Real.pi * (0.5 + drive * 0.5) =
        (x * (range * 5) - 0.2 * (x * (range * 5)) ^ 3)
          * Real.pi * (0.5 + 0.5 * drive) := by ring
    rw [e2]

/-- C4: the per-sample stage gates the input by `0.1` when
`|x| < 0.01` (and by `1` otherwise) before the nonlinearity, and the
output is `(distorted·(0.5+1.5·volume)·blend + clean_gated·(1−blend))`
multiplied once more by the same gate factor. -/
theorem processSample_gate_and_mix (mode : ℤ) (drive range blend volume x : ℝ) :
    processSample mode drive range blend volume x =
      (distortStage mode drive (x * (if |x| < 0.01 then (0.1:ℝ) else 1) * (range * 5))
          * (0.5 + 1.5 * volume) * blend
        + x * (if |x| < 0.01 then (0.1:ℝ) else 1) * (1 - blend))
      * (if |x| < 0.01 then (0.1:ℝ) else 1) := by
  unfold processSample gateFactor
  ring

/-- C3: whenever the bypass flag's raw value is at least `0.5`, a
process call leaves the buffer exactly as it was — no sample of any
channel is modified and no channel is cleared — for every input buffer,
channel configuration, and downstream pipeline. -/
theorem processBlock_bypassed_unchanged
    (rest : ParamState → List (List ℝ) → List (List ℝ))
    (numIn numOut : ℕ) (s : ParamState) (buffer : List (List ℝ))
    (h : bypassRaw s ≥ 1/2) :
    processBlock rest numIn numOut s buffer = buffer := by
  have hb : bypassRaw s > 1/2 := by
    unfold bypassRaw at h ⊢
    cases hby : s.bypass
    · rw [hby] at h
      norm_num at h
    · norm_num
  unfold processBlock
  rw [if_pos hb]

/-- A parameter snapshot with bypass engaged, for the bypass witness. -/
def bypassOnParams : ParamState :=
  { defaultParams with bypass := true }

/-- Witness for `processBlock_bypassed_unchanged` on a concrete stereo
buffer. -/
theorem processBlock_bypassed_unchanged_witness :
    bypassRaw bypassOnParams ≥ 1/2 ∧
    processBlock (fun _ _ => []) 2 2 bypassOnParams [[1, 2], [3, 4]] = [[1, 2], [3, 4]] :=
  ⟨by norm_num [bypassRaw, bypassOnParams],
    processBlock_bypassed_unchanged _ 2 2 _ _ (by norm_num [bypassRaw, bypassOnParams])⟩

/-- C8: for distortion modes 1 (B) and 2 (C) the waveshaper output —
taken before the volume scaling and the wet/dry mix — has magnitude at
most `0.9` for every input sample and all in-range `drive` and `range`
values. -/
theorem distortStage_modeBC_bounded (drive range x : ℝ)
    (hd0 : 0 ≤ drive) (hd2 : drive ≤ 2) (hr0 : 0 ≤ range) (hr5 : range ≤ 5) :
    |distortStage 1 drive (x * (range * 5))| ≤ 0.9 ∧
    |distortStage 2 drive (x * (range * 5))| ≤ 0.9 := by
  constructor
  · have e : distortStage 1 drive (x * (range * 5)) =
        jlimit (-0.9) 0.9
          (Real.tanh (x * (range * 5) * 0.6) * 1.8 * (1 + drive * 2)) := by
      norm_num [distortStage]
    rw [e]
    exact abs_jlimit_le _
  · have e : distortStage 2 drive (x * (range * 5)) =
        jlimit (-0.9) 0.9
          (Real.sin ((x * (range * 5)
              - 0.2 * (x * (range * 5)) * (x * (range * 5)) * (x * (range * 5)))
            * Real.pi * (0.5 + drive * 0.5))) := by
      norm_num [distortStage]
    rw [e]
    exact abs_jlimit_le _

/-- Witness for `distortStage_modeBC_bounded` at drive = 1, range = 2,
input sample 0. -/
theorem distortStage_modeBC_bounded_witness :
    (0 ≤ (1:ℝ) ∧ (1:ℝ) ≤ 2 ∧ 0 ≤ (2:ℝ) ∧ (2:ℝ) ≤ 5) ∧
    (|distortStage 1 1 ((0:ℝ) * (2 * 5))| ≤ 0.9 ∧
      |distortStage 2 1 ((0:ℝ) * (2 * 5))| ≤ 0.9) :=
  ⟨⟨by norm_num, by norm_num, by norm_num, by norm_num⟩,
    distortStage_modeBC_bounded 1 2 0 (by norm_num) (by norm_num) (by norm_num) (by norm_num)⟩
